import Mathlib

/-!
# GazeSync (`src/main.py`) — shallow embedding and verification

This file embeds the control logic of the GazeSync accessibility script:
the per-direction scroll debouncer (`process_scroll`), the calibration
manager and automatic recalibration loop, the sleep monitor, and the
voice-command dispatcher (`voice_command_listener`), together with the
shared mutable state they coordinate through.

Modelling conventions:
* wall-clock timestamps are rationals (`ℚ`); `time.time()` values become
  explicit frame/utterance inputs;
* landmark pixel coordinates are integers (`ℤ`), matching the
  `int(lm.landmark[idx].x * w)` conversion in the source: landmark inputs
  are given directly in pixels;
* `pink_boxes` (a Python dict) is an association list `List (ℕ × Zone)`;
  a lookup that would raise `KeyError` makes the frame step return `none`;
* I/O side effects (`pyautogui` calls, printing, drawing) are modelled as
  emitted `Action` values.
-/

attribute [local semireducible] Rat.add Rat.sub Rat.mul Rat.inv

namespace GazeSync

/-- Scroll / arrow-key directions. -/
inductive Dir : Type
  | up | down | left | right
deriving DecidableEq, Repr

/-- Zoom modes of `zoom_control`. -/
inductive ZoomMode : Type
  | zin | zout | zreset
deriving DecidableEq, Repr

/-- Observable effects emitted by the program: one `scroll_once(direction)`
call or one `zoom_control(direction)` call. -/
inductive Action : Type
  | scrollOnce (d : Dir)
  | zoomControl (m : ZoomMode)
deriving DecidableEq, Repr

/-- Per-direction scroll timing state: one entry of the Python dict
`scroll_state`; `start_time : None`, `last_scroll_time : 0` initially. -/
structure DirState : Type where
  start_time : Option ℚ
  last_scroll_time : ℚ
deriving DecidableEq, Repr

/-- `scroll_state[d]` at program start. -/
def DirState.init : DirState := { start_time := none, last_scroll_time := 0 }

/-- `scroll_delay = 0.3` from the source. -/
def scroll_delay : ℚ := 3 / 10

/-- The body of `process_scroll(direction, condition)` for one direction:
given the global `scroll_enabled` flag, the frame's `current_time` and the
direction's trigger condition, returns the updated `DirState` and whether
`scroll_once` was called this frame. -/
def process_scroll (scroll_enabled : Bool) (current_time : ℚ) (condition : Bool)
    (state : DirState) : DirState × Bool :=
  if !scroll_enabled then (state, false)
  else if condition then
    match state.start_time with
    | none =>
        ({ start_time := some current_time, last_scroll_time := current_time }, true)
    | some s0 =>
        if current_time - s0 ≥ 1 ∧ current_time - state.last_scroll_time ≥ scroll_delay then
          ({ state with last_scroll_time := current_time }, true)
        else (state, false)
  else ({ state with start_time := none }, false)

/-- One frame's input as seen by a single direction of the debouncer:
the `scroll_enabled` flag at that frame, the trigger condition, and the
frame's `current_time`. -/
structure DirFrame : Type where
  enabled : Bool
  cond : Bool
  time : ℚ
deriving DecidableEq, Repr

/-- Run the debouncer of one direction over a sequence of frames,
keeping only the state. -/
def runDir (s : DirState) (frames : List DirFrame) : DirState :=
  frames.foldl (fun st f => (process_scroll f.enabled f.time f.cond st).1) s

/-- Run the debouncer of one direction over a sequence of frames, also
recording, frame by frame, whether `scroll_once` was called. -/
def runDirActs (s : DirState) (frames : List DirFrame) : DirState × List Bool :=
  match frames with
  | [] => (s, [])
  | f :: t =>
      let r := process_scroll f.enabled f.time f.cond s
      let rest := runDirActs r.1 t
      (rest.1, r.2 :: rest.2)

/-- Claim C3's invariant, formalised as stated: if `start_time` is non-null
at the end of the trace, there is a frame index `i` at which `start_time`
was last set (to that frame's time), and the trigger condition was true on
every frame after `i` — with no regard to `scroll_enabled`. -/
def contTrueSinceSet (frames : List DirFrame) (t0 : ℚ) : Prop :=
  ∃ i : Fin frames.length,
    (frames.get i).time = t0 ∧ (frames.get i).cond = true ∧
    (runDir DirState.init (frames.take i)).start_time ≠ some t0 ∧
    (runDir DirState.init (frames.take (i + 1))).start_time = some t0 ∧
    ∀ j : Fin frames.length, i < j → (frames.get j).cond = true

instance (frames : List DirFrame) (t0 : ℚ) : Decidable (contTrueSinceSet frames t0) := by
  unfold contTrueSinceSet; infer_instance

/-- The amended C3 invariant: as `contTrueSinceSet`, but only the frames on
which `scroll_enabled` was true are required to have a true condition after
the setting frame (a disabled frame leaves the state untouched). -/
def contTrueSinceSetEnabled (frames : List DirFrame) (t0 : ℚ) : Prop :=
  ∃ i : Fin frames.length,
    (frames.get i).time = t0 ∧ (frames.get i).cond = true ∧
    (frames.get i).enabled = true ∧
    (runDir DirState.init (frames.take i)).start_time ≠ some t0 ∧
    (runDir DirState.init (frames.take (i + 1))).start_time = some t0 ∧
    ∀ j : Fin frames.length, i < j →
      (frames.get j).enabled = true → (frames.get j).cond = true

instance (frames : List DirFrame) (t0 : ℚ) :
    Decidable (contTrueSinceSetEnabled frames t0) := by
  unfold contTrueSinceSetEnabled; infer_instance

/-- A calibrated "pink box": `(left, right, top, bottom)` pixel bounds. -/
structure Zone : Type where
  left : ℤ
  right : ℤ
  top : ℤ
  bottom : ℤ
deriving DecidableEq, Repr

/-- Pixel positions of the three tracked landmarks of one detected face:
`tracked_idxs_x = [10, 152, 168]` (forehead, chin, central point). -/
structure FaceIn : Type where
  p10 : ℤ × ℤ
  p152 : ℤ × ℤ
  p168 : ℤ × ℤ
deriving DecidableEq, Repr

/-- One iteration of the video loop: the frame's `current_time` and the
detected face's tracked-landmark pixel positions, if any. -/
structure FrameIn : Type where
  time : ℚ
  face : Option FaceIn
deriving DecidableEq, Repr

/-- The four entries of the `scroll_state` dict. -/
structure ScrollState : Type where
  left : DirState
  right : DirState
  up : DirState
  down : DirState
deriving DecidableEq, Repr

/-- The mutable state shared by the video loop and the voice thread. -/
structure AppState : Type where
  scroll_enabled : Bool
  recalibrated : Bool
  calibration_start : Option ℚ
  recalibration_timer_start : Option ℚ
  pink_boxes : List (ℕ × Zone)
  sleep_mode : Bool
  last_face_seen_time : ℚ
  scroll : ScrollState
deriving DecidableEq, Repr

/-- `dead_zone = 20` pixels. -/
def dead_zone : ℤ := 20

/-- `recalibration_hold_time = 3` seconds. -/
def recalibration_hold_time : ℚ := 3

/-- `sleep_trigger_duration = 5` seconds. -/
def sleep_trigger_duration : ℚ := 5

/-- The box built around a landmark's pixel position on (re)calibration:
`(lx - dead_zone, lx + dead_zone, ly - dead_zone, ly + dead_zone)`. -/
def mkZone (p : ℤ × ℤ) : Zone :=
  { left := p.1 - dead_zone, right := p.1 + dead_zone,
    top := p.2 - dead_zone, bottom := p.2 + dead_zone }

/-- Python dict assignment `d[k] = v` on an association list. -/
def assocInsert (k : ℕ) (v : Zone) : List (ℕ × Zone) → List (ℕ × Zone)
  | [] => [(k, v)]
  | (k', v') :: t => if k' = k then (k, v) :: t else (k', v') :: assocInsert k v t

/-- The snapshot loop `for idx in tracked_idxs_x: pink_boxes[idx] = (...)`,
run at initial calibration and at automatic recalibration. -/
def snapshotBoxes (f : FaceIn) (boxes : List (ℕ × Zone)) : List (ℕ × Zone) :=
  assocInsert 168 (mkZone f.p168)
    (assocInsert 152 (mkZone f.p152)
      (assocInsert 10 (mkZone f.p10) boxes))

/-- `left <= px <= right and top <= py <= bottom` for one landmark. -/
def insideZone (z : Zone) (p : ℤ × ℤ) : Bool :=
  decide (z.left ≤ p.1) && decide (p.1 ≤ z.right) &&
  decide (z.top ≤ p.2) && decide (p.2 ≤ z.bottom)

/-- `is_all_inside_boxes(lm, h, w)`, given the zones of the three tracked
landmarks (the calibrated path has already looked all three up). -/
def is_all_inside_boxes (z10 z152 z168 : Zone) (f : FaceIn) : Bool :=
  insideZone z10 f.p10 && insideZone z152 f.p152 && insideZone z168 f.p168

/-- `avg_x = int(np.mean([x10, x152, x168]))`: mean of the three tracked
x coordinates, truncated toward zero. -/
def avgX (f : FaceIn) : ℤ :=
  Int.tdiv (f.p10.1 + f.p152.1 + f.p168.1) 3

/-- The post-calibration branch of the video loop body: gaze evaluation,
the four `process_scroll` calls (in source order left, right, up, down)
and the automatic-recalibration logic. `z10, z152, z168` are the looked-up
`pink_boxes` entries of the tracked landmarks. -/
def calibratedFrame (s : AppState) (now : ℚ) (f : FaceIn)
    (z10 z152 z168 : Zone) : AppState × List Action :=
  let avg_x := avgX f
  let overall_left := min z10.left (min z152.left z168.left)
  let overall_right := max z10.right (max z152.right z168.right)
  let sl := process_scroll s.scroll_enabled now (decide (avg_x < overall_left)) s.scroll.left
  let sr := process_scroll s.scroll_enabled now (decide (avg_x > overall_right)) s.scroll.right
  let su := process_scroll s.scroll_enabled now (decide (f.p10.2 < z10.top)) s.scroll.up
  let sd := process_scroll s.scroll_enabled now (decide (f.p152.2 > z152.bottom)) s.scroll.down
  let acts :=
    (if sl.2 then [Action.scrollOnce Dir.left] else []) ++
    (if sr.2 then [Action.scrollOnce Dir.right] else []) ++
    (if su.2 then [Action.scrollOnce Dir.up] else []) ++
    (if sd.2 then [Action.scrollOnce Dir.down] else [])
  let s1 := { s with scroll := { left := sl.1, right := sr.1, up := su.1, down := sd.1 } }
  if is_all_inside_boxes z10 z152 z168 f then
    match s1.recalibration_timer_start with
    | none => ({ s1 with recalibration_timer_start := some now }, acts)
    | some r =>
        if now - r ≥ recalibration_hold_time then
          ({ s1 with pink_boxes := snapshotBoxes f s1.pink_boxes,
                     recalibration_timer_start := none }, acts)
        else (s1, acts)
  else ({ s1 with recalibration_timer_start := none }, acts)

/-- One iteration of the main video loop (face + voice mode), from reading
a frame to the end of the loop body. Returns `none` when a `pink_boxes`
lookup would raise `KeyError`. -/
def frameStep (s : AppState) (inp : FrameIn) : Option (AppState × List Action) :=
  match inp.face with
  | some f =>
      let s0 := { s with last_face_seen_time := inp.time, sleep_mode := false }
      if s0.recalibrated then
        match List.lookup 10 s0.pink_boxes, List.lookup 152 s0.pink_boxes,
              List.lookup 168 s0.pink_boxes with
        | some z10, some z152, some z168 =>
            some (calibratedFrame s0 inp.time f z10 z152 z168)
        | _, _, _ => none
      else
        match s0.calibration_start with
        | none => some ({ s0 with calibration_start := some inp.time }, [])
        | some c =>
            if inp.time - c ≥ 2 then
              some ({ s0 with pink_boxes := snapshotBoxes f s0.pink_boxes,
                              recalibrated := true, calibration_start := none }, [])
            else some (s0, [])
  | none =>
      if inp.time - s.last_face_seen_time > sleep_trigger_duration ∧ s.sleep_mode = false
      then some ({ s with sleep_mode := true }, [])
      else some (s, [])

/-- Run the video loop over a list of frames, propagating a `KeyError`. -/
def runFrames (s : AppState) (l : List FrameIn) : Option AppState :=
  l.foldlM (fun st f => Option.map Prod.fst (frameStep st f)) s

/-- The global state at startup (`t0` is the process start time used to
initialise `last_face_seen_time`). -/
def initState (t0 : ℚ) : AppState :=
  { scroll_enabled := true, recalibrated := false, calibration_start := none,
    recalibration_timer_start := none, pink_boxes := [], sleep_mode := false,
    last_face_seen_time := t0,
    scroll := { left := DirState.init, right := DirState.init,
                up := DirState.init, down := DirState.init } }

/-- `result.get("text", "").lower()`: per-character lowering of the
transcript. On the ASCII text the Vosk English model emits, Python's
`str.lower` is exactly per-character lowering. -/
def pyLower (s : String) : String := String.mk (s.data.map Char.toLower)

/-- Python's `word in command` substring containment test. -/
def wordIn (w command : String) : Bool :=
  decide (w.toList <:+: command.toList)

/-- `any(word in command for word in ws)`. -/
def matchAny (command : String) (ws : List String) : Bool :=
  ws.any (fun w => wordIn w command)

/-- Stop/Pause keyword list. -/
def stopWords : List String := ["stop", "pause", "dop", "top", "was", "cause"]

/-- Start/Resume keyword list. -/
def startWords : List String :=
  ["start", "resume", "dark", "star", "st", "stat", "that", "presume"]

/-- Recalibration keyword list. -/
def recalWords : List String :=
  ["situation", "sitting", "acqusition", "position", "reposition", "barate",
   "deliberately", "deliberate", "calibrate", "celebrate", "gallery",
   "recallibrate", "recal", "call", "callibrate", "bread", "break", "brate",
   "rate", "ate", "at", "eat", "libe", "libre", "lib"]

/-- Zoom-in keyword list. -/
def zoomInWords : List String :=
  ["zoom in", "soon in", "room in", "gum in", "go in", "do min", "boomin",
   "no mean", "domain", "you mean", "zoomin", "zooming"]

/-- Zoom-out keyword list. -/
def zoomOutWords : List String :=
  ["zoom out", "soon out", "room out", "doom out", "go out", "boom out",
   "zoomout"]

/-- Zoom-reset keyword list. -/
def zoomResetWords : List String :=
  ["reset zoom", "default zoom", "normal zoom", "zoom reset", "zoom default",
   "zoom normal", "original", "reset", "default", "default view", "reset view",
   "research zoom", "default real", "said view", "research you"]

/-- Voice scroll-up keyword list. -/
def upWords : List String :=
  ["up", "cup", "hub", "pup", "sub", "hup", "dup", "tup", "sup", "zup", "bup",
   "op", "pop"]

/-- Voice scroll-down keyword list (the source list, duplicates included). -/
def downWords : List String :=
  ["down", "drown", "downry", "dong", "lawn", "lown", "don\x27t", "don", "down",
   "dowd", "dome", "dome", "dome", "dome", "nown", "now"]

/-- Voice scroll-left keyword list. -/
def leftWords : List String :=
  ["left", "let", "let\x27s", "this", "listen", "lefty", "lost", "loft", "less",
   "lives", "life", "live"]

/-- Voice scroll-right keyword list. -/
def rightWords : List String :=
  ["right", "night", "plight", "height", "knight", "light", "fight", "might",
   "flight"]

/-- Processing of one finalized utterance by `voice_command_listener`:
lower-case the transcript, skip it when empty, then run the if/elif chain,
updating the shared state and emitting the zoom / one-shot-scroll actions.
`voice_only_mode` is the startup mode flag; `now` is `time.time()` at the
recalibration branch. -/
def voice_command (voice_only_mode : Bool) (now : ℚ) (transcript : String)
    (s : AppState) : AppState × List Action :=
  let command := pyLower transcript
  if command = "" then (s, [])
  else if matchAny command stopWords then
    ({ s with scroll_enabled := false }, [])
  else if matchAny command startWords then
    ({ s with scroll_enabled := true }, [])
  else if matchAny command recalWords then
    ({ s with recalibrated := false, calibration_start := some now }, [])
  else if matchAny command zoomInWords then (s, [Action.zoomControl ZoomMode.zin])
  else if matchAny command zoomOutWords then (s, [Action.zoomControl ZoomMode.zout])
  else if matchAny command zoomResetWords then (s, [Action.zoomControl ZoomMode.zreset])
  else if voice_only_mode && s.scroll_enabled then
    if matchAny command upWords then (s, [Action.scrollOnce Dir.up])
    else if matchAny command downWords then (s, [Action.scrollOnce Dir.down])
    else if matchAny command leftWords then (s, [Action.scrollOnce Dir.left])
    else if matchAny command rightWords then (s, [Action.scrollOnce Dir.right])
    else (s, [])
  else (s, [])

/-- States reachable from startup by interleaving video-loop iterations
(that do not raise) with voice-thread utterances. -/
inductive Reachable : AppState → Prop
  | init (t0 : ℚ) : Reachable (initState t0)
  | frame {s s' : AppState} {inp : FrameIn} {as : List Action} :
      Reachable s → frameStep s inp = some (s', as) → Reachable s'
  | voice {s s' : AppState} {vom : Bool} {now : ℚ} {tsc : String}
      {as : List Action} :
      Reachable s → voice_command vom now tsc s = (s', as) → Reachable s'

/-- A face held at the centre of the zones that `faceSample` itself
calibrates: forehead (100, 50), chin (100, 200), central point (100, 125). -/
def faceSample : FaceIn := { p10 := (100, 50), p152 := (100, 200), p168 := (100, 125) }

/-- A face 10 px down-right of `faceSample`, still inside its zones. -/
def faceSample2 : FaceIn := { p10 := (110, 60), p152 := (110, 210), p168 := (110, 135) }

/-- The state after the first face frame (t = 1) of a run from startup:
the calibration hold has just started. -/
def calibStep1 : AppState :=
  { initState 0 with last_face_seen_time := 1, calibration_start := some 1 }

/-- The state after frames at t = 1 and t = 3 showing `faceSample`: initial
calibration has completed and the zones are centred on `faceSample`. -/
def calibSample : AppState :=
  { scroll_enabled := true, recalibrated := true, calibration_start := none,
    recalibration_timer_start := none,
    pink_boxes := [(10, { left := 80, right := 120, top := 30, bottom := 70 }),
                   (152, { left := 80, right := 120, top := 180, bottom := 220 }),
                   (168, { left := 80, right := 120, top := 105, bottom := 145 })],
    sleep_mode := false, last_face_seen_time := 3,
    scroll := { left := DirState.init, right := DirState.init,
                up := DirState.init, down := DirState.init } }

/-- A face well to the left of `calibSample`'s zones: `avg_x = 30` is
below `overall_left = 80`, so the left trigger condition is true. -/
def faceLeft : FaceIn := { p10 := (30, 50), p152 := (30, 200), p168 := (30, 125) }

/-- The safety invariant behind C10: whenever `recalibrated` is true,
`pink_boxes` holds an entry for each of the three tracked landmark
indices, so the dictionary lookups of the calibrated path cannot raise. -/
def boxesOK (s : AppState) : Prop :=
  s.recalibrated = true →
    (List.lookup 10 s.pink_boxes).isSome = true ∧
    (List.lookup 152 s.pink_boxes).isSome = true ∧
    (List.lookup 168 s.pink_boxes).isSome = true

/-! ## Basic lemmas about the scroll debouncer -/

theorem process_scroll_disabled (now : ℚ) (c : Bool) (st : DirState) :
    process_scroll false now c st = (st, false) := by
  simp [process_scroll]

theorem process_scroll_cond_false (now : ℚ) (st : DirState) :
    process_scroll true now false st = ({ st with start_time := none }, false) := by
  simp [process_scroll]

theorem process_scroll_rising (now : ℚ) (st : DirState) (h : st.start_time = none) :
    process_scroll true now true st =
      ({ start_time := some now, last_scroll_time := now }, true) := by
  simp [process_scroll, h]

theorem process_scroll_held (now : ℚ) (st : DirState) (s0 : ℚ)
    (h : st.start_time = some s0) :
    process_scroll true now true st =
      if now - s0 ≥ 1 ∧ now - st.last_scroll_time ≥ scroll_delay then
        ({ st with last_scroll_time := now }, true)
      else (st, false) := by
  simp [process_scroll, h]

theorem process_scroll_start_some (e : Bool) (now : ℚ) (c : Bool) (st : DirState)
    (s0 : ℚ) (h : st.start_time = some s0) (hec : e = true → c = true) :
    ((process_scroll e now c st).1).start_time = some s0 := by
  cases e with
  | false => simp [process_scroll, h]
  | true =>
      rw [hec rfl, process_scroll_held now st s0 h]
      split <;> simp [h]

theorem process_scroll_no_action (e : Bool) (now : ℚ) (st : DirState) :
    (process_scroll e now false st).2 = false := by
  cases e <;> simp [process_scroll]

theorem runDir_nil (s : DirState) : runDir s [] = s := rfl

theorem runDir_cons (s : DirState) (f : DirFrame) (t : List DirFrame) :
    runDir s (f :: t) = runDir (process_scroll f.enabled f.time f.cond s).1 t := rfl

theorem runDir_append (s : DirState) (a b : List DirFrame) :
    runDir s (a ++ b) = runDir (runDir s a) b := by
  simp [runDir, List.foldl_append]

theorem runDir_start_persist (fs : List DirFrame) :
    ∀ (s : DirState) (t0 : ℚ), s.start_time = some t0 →
      (∀ f ∈ fs, f.enabled = true → f.cond = true) →
      (runDir s fs).start_time = some t0 := by
  induction fs with
  | nil => intro s t0 h _; simpa [runDir_nil]
  | cons f t ih =>
      intro s t0 h hall
      rw [runDir_cons]
      exact ih _ t0
        (process_scroll_start_some f.enabled f.time f.cond s t0 h
          (hall f (List.mem_cons_self f t)))
        (fun g hg => hall g (List.mem_cons_of_mem f hg))

theorem runDirActs_no_cond (fs : List DirFrame) :
    ∀ s : DirState, (∀ f ∈ fs, f.cond = false) →
      ∀ b ∈ (runDirActs s fs).2, b = false := by
  induction fs with
  | nil => intro s _ b hb; simp [runDirActs] at hb
  | cons f t ih =>
      intro s hall b hb
      simp only [runDirActs] at hb
      rcases List.mem_cons.mp hb with hb | hb
      · have := hall f (List.mem_cons_self f t)
        rw [hb, this, process_scroll_no_action]
      · exact ih _ (fun g hg => hall g (List.mem_cons_of_mem f hg)) b hb

/-- C1: with `scroll_enabled` true throughout and a condition that turns
true at `t = 0` and stays true, `process_scroll` emits exactly one action
on the rising-edge frame (setting `start_time` and `last_scroll_time` to
that frame's time), keeps `start_time` pinned while the condition holds,
emits nothing on a frame whose time is within 1.0 s of `start_time`, emits
an action (updating `last_scroll_time`) exactly on the frames with
`now − start_time ≥ 1.0` and `now − last_scroll_time ≥ 0.3`, and on a
condition-false frame clears `start_time` and, for as long as the
condition stays false, never acts again. -/
theorem C1_process_scroll_schedule :
    (∀ (now : ℚ) (st : DirState), st.start_time = none →
        process_scroll true now true st =
          ({ start_time := some now, last_scroll_time := now }, true)) ∧
    (∀ (fs : List DirFrame) (st : DirState) (t0 : ℚ), st.start_time = some t0 →
        (∀ f ∈ fs, f.enabled = true → f.cond = true) →
        (runDir st fs).start_time = some t0) ∧
    (∀ (now : ℚ) (st : DirState) (s0 : ℚ), st.start_time = some s0 →
        now - s0 < 1 → process_scroll true now true st = (st, false)) ∧
    (∀ (now : ℚ) (st : DirState) (s0 : ℚ), st.start_time = some s0 →
        now - s0 ≥ 1 → now - st.last_scroll_time ≥ scroll_delay →
        process_scroll true now true st =
          ({ st with last_scroll_time := now }, true)) ∧
    (∀ (now : ℚ) (st : DirState) (s0 : ℚ), st.start_time = some s0 →
        now - s0 ≥ 1 → now - st.last_scroll_time < scroll_delay →
        process_scroll true now true st = (st, false)) ∧
    (∀ (now : ℚ) (st : DirState),
        process_scroll true now false st =
          ({ st with start_time := none }, false)) ∧
    (∀ (fs : List DirFrame) (st : DirState), (∀ f ∈ fs, f.cond = false) →
        ∀ b ∈ (runDirActs st fs).2, b = false) := by
  refine ⟨process_scroll_rising, runDir_start_persist, ?_, ?_, ?_,
    process_scroll_cond_false, runDirActs_no_cond⟩
  · intro now st s0 h hlt
    rw [process_scroll_held now st s0 h]
    rw [if_neg]
    rintro ⟨h1, -⟩
    exact absurd h1 (not_le.mpr hlt)
  · intro now st s0 h h1 h2
    rw [process_scroll_held now st s0 h, if_pos ⟨h1, h2⟩]
  · intro now st s0 h h1 h2
    rw [process_scroll_held now st s0 h]
    rw [if_neg]
    rintro ⟨-, h2x⟩
    exact absurd h2x (not_le.mpr h2)

/-- Witness for C1 at the spec's own scenario (§8): actions at t = 0, 1.0
and 1.3, silence at t = 0.5 and t = 1.2, reset on a condition-false frame. -/
theorem C1_witness :
    process_scroll true 0 true DirState.init =
      ({ start_time := some 0, last_scroll_time := 0 }, true) ∧
    process_scroll true (mkRat 1 2) true { start_time := some 0, last_scroll_time := 0 } =
      ({ start_time := some 0, last_scroll_time := 0 }, false) ∧
    process_scroll true 1 true { start_time := some 0, last_scroll_time := 0 } =
      ({ start_time := some 0, last_scroll_time := 1 }, true) ∧
    process_scroll true (mkRat 12 10) true { start_time := some 0, last_scroll_time := 1 } =
      ({ start_time := some 0, last_scroll_time := 1 }, false) ∧
    process_scroll true (mkRat 13 10) true { start_time := some 0, last_scroll_time := 1 } =
      ({ start_time := some 0, last_scroll_time := mkRat 13 10 }, true) ∧
    process_scroll true 2 false { start_time := some 0, last_scroll_time := mkRat 13 10 } =
      ({ start_time := none, last_scroll_time := mkRat 13 10 }, false) :=
  ⟨C1_process_scroll_schedule.1 0 DirState.init rfl,
   C1_process_scroll_schedule.2.2.1 (mkRat 1 2) _ 0 rfl (by decide),
   C1_process_scroll_schedule.2.2.2.1 1 _ 0 rfl (by decide) (by decide),
   C1_process_scroll_schedule.2.2.2.2.1 (mkRat 12 10) _ 0 rfl (by decide) (by decide),
   C1_process_scroll_schedule.2.2.2.1 (mkRat 13 10) _ 0 rfl (by decide) (by decide),
   C1_process_scroll_schedule.2.2.2.2.2.1 2 _⟩

theorem runDir_start_decomp (tr : List DirFrame) (t0 : ℚ)
    (h : (runDir DirState.init tr).start_time = some t0) :
    ∃ fs1 f fs2, tr = fs1 ++ f :: fs2 ∧ f.enabled = true ∧ f.cond = true ∧
      f.time = t0 ∧ (runDir DirState.init fs1).start_time = none ∧
      ∀ g ∈ fs2, g.enabled = true → g.cond = true := by
  induction tr using List.reverseRecOn with
  | nil => simp [runDir_nil, DirState.init] at h
  | append_singleton l a ih =>
      rw [runDir_append] at h
      by_cases he : a.enabled = true
      · by_cases hc : a.cond = true
        · cases hst : (runDir DirState.init l).start_time with
          | none =>
              have hstep : (runDir (runDir DirState.init l) [a]).start_time = some a.time := by
                rw [runDir_cons, runDir_nil, he, hc,
                  process_scroll_rising a.time _ hst]
              rw [hstep] at h
              exact ⟨l, a, [], rfl, he, hc, Option.some_injective ℚ h, hst, by simp⟩
          | some u =>
              have hstep : (runDir (runDir DirState.init l) [a]).start_time = some u := by
                rw [runDir_cons, runDir_nil]
                exact process_scroll_start_some a.enabled a.time a.cond _ u hst
                  (fun _ => hc)
              rw [hstep] at h
              obtain ⟨fs1, f, fs2, heq, hfe, hfc, hft, hnone, hall⟩ :=
                ih (hst.trans h)
              refine ⟨fs1, f, fs2 ++ [a], by rw [heq]; simp, hfe, hfc, hft, hnone, ?_⟩
              intro g hg
              rcases List.mem_append.mp hg with hg | hg
              · exact hall g hg
              · rw [List.mem_singleton.mp hg]
                exact fun _ => hc
        · exfalso
          have hcf : a.cond = false := Bool.eq_false_iff.mpr hc
          have hstep : (runDir (runDir DirState.init l) [a]).start_time = none := by
            rw [runDir_cons, runDir_nil, he, hcf, process_scroll_cond_false]
          rw [hstep] at h
          exact Option.noConfusion h
      · have hef : a.enabled = false := Bool.eq_false_iff.mpr he
        have hstep : runDir (runDir DirState.init l) [a] = runDir DirState.init l := by
          rw [runDir_cons, runDir_nil, hef, process_scroll_disabled]
        rw [hstep] at h
        obtain ⟨fs1, f, fs2, heq, hfe, hfc, hft, hnone, hall⟩ := ih h
        refine ⟨fs1, f, fs2 ++ [a], by rw [heq]; simp, hfe, hfc, hft, hnone, ?_⟩
        intro g hg
        rcases List.mem_append.mp hg with hg | hg
        · exact hall g hg
        · rw [List.mem_singleton.mp hg]
          intro hg'
          exact absurd hg' (by rw [hef]; simp)

/-- C3 fails as stated: on the trace where the condition is true on an
enabled frame at t = 0 (setting `start_time`) and the voice thread then
disables scrolling, a later frame with a false condition leaves
`start_time` non-null, because `process_scroll` returns before clearing it
when `scroll_enabled` is false — so `start_time` is non-null without the
condition having been continuously true since it was set. -/
theorem C3_counterexample :
    ¬ (∀ (frames : List DirFrame) (t0 : ℚ),
        (runDir DirState.init frames).start_time = some t0 →
        contTrueSinceSet frames t0) := by
  intro h
  exact absurd (h [⟨true, true, 0⟩, ⟨false, false, 1⟩] 0 (by decide)) (by decide)

/-- C3 amended: `start_time` is non-null iff the trigger condition has been
true on every frame **processed with `scroll_enabled` true** since
`start_time` was last set (frames processed while scrolling is disabled
leave the per-direction state untouched). Forward direction: a non-null
`start_time` was set on a frame whose time it equals, with the condition
true on that frame and on every later enabled frame. Converse: once set,
`start_time` persists through any frames on which `scroll_enabled` implies
the condition. -/
theorem C3_start_time_invariant :
    (∀ (frames : List DirFrame) (t0 : ℚ),
        (runDir DirState.init frames).start_time = some t0 →
        contTrueSinceSetEnabled frames t0) ∧
    (∀ (fs1 fs2 : List DirFrame) (t0 : ℚ),
        (runDir DirState.init fs1).start_time = some t0 →
        (∀ f ∈ fs2, f.enabled = true → f.cond = true) →
        (runDir DirState.init (fs1 ++ fs2)).start_time = some t0) := by
  constructor
  · intro frames t0 h
    obtain ⟨fs1, f, fs2, heq, hfe, hfc, hft, hnone, hall⟩ :=
      runDir_start_decomp frames t0 h
    subst heq
    have hlen : fs1.length < (fs1 ++ f :: fs2).length := by simp
    refine ⟨⟨fs1.length, hlen⟩, ?_, ?_, ?_, ?_, ?_, ?_⟩
    · simp [List.get_eq_getElem, List.getElem_append_right, hft]
    · simp [List.get_eq_getElem, List.getElem_append_right, hfc]
    · simp [List.get_eq_getElem, List.getElem_append_right, hfe]
    · have : (fs1 ++ f :: fs2).take fs1.length = fs1 := List.take_left fs1 _
      rw [this, hnone]
      exact fun hx => Option.noConfusion hx
    · have htake : (fs1 ++ f :: fs2).take (fs1.length + 1) = fs1 ++ [f] := by
        rw [List.take_append_eq_append_take]
        simp
      rw [htake, runDir_append, runDir_cons, runDir_nil, hfe, hfc,
        process_scroll_rising f.time _ hnone]
      simpa using hft
    · intro j hj hje
      have hj1 : fs1.length < (j : ℕ) := hj
      have hj2 : (j : ℕ) < fs1.length + fs2.length + 1 := by
        have hx := j.isLt
        simp only [List.length_append, List.length_cons] at hx
        omega
      obtain ⟨k, hk⟩ : ∃ k, (j : ℕ) - fs1.length = k + 1 :=
        ⟨(j : ℕ) - fs1.length - 1, by omega⟩
      have hkl : k < fs2.length := by omega
      have hb : (j : ℕ) - fs1.length < (f :: fs2).length := by
        simp only [List.length_cons]
        omega
      have hget : (fs1 ++ f :: fs2).get j = (f :: fs2)[(j : ℕ) - fs1.length] := by
        simp only [List.get_eq_getElem]
        rw [List.getElem_append_right (le_of_lt hj1)]
      have hget2 : (f :: fs2)[(j : ℕ) - fs1.length] = fs2[k] := by
        simp only [hk]
        exact List.getElem_cons_succ f fs2 k (by simp only [List.length_cons]; omega)
      have hmem : (fs1 ++ f :: fs2).get j ∈ fs2 := by
        rw [hget, hget2]
        exact List.getElem_mem hkl
      exact hall _ hmem hje
  · intro fs1 fs2 t0 h hall
    rw [runDir_append]
    exact runDir_start_persist fs2 _ t0 h hall

/-- Witness for C3 (amended): applied to the one-frame trace that sets
`start_time` at t = 0 and then a disabled frame. -/
theorem C3_witness :
    contTrueSinceSetEnabled [⟨true, true, 0⟩, ⟨false, false, 1⟩] 0 :=
  C3_start_time_invariant.1 [⟨true, true, 0⟩, ⟨false, false, 1⟩] 0 (by decide)

/-! ## The voice dispatcher -/

/-- C2: the if/elif chain of `voice_command_listener` resolves every
finalized transcript to at most one intent, in the priority order
Stop > Start > Recalibrate > ZoomIn > ZoomOut > ZoomReset > directional
scroll (Up, then Down, then Left, then Right): once an earlier category's
keyword set matches as a substring of the lower-cased transcript, exactly
that category's effect happens and no later category's effect occurs; and
the directional group is evaluated only when `voice_only_mode` and
`scroll_enabled` are both true. -/
theorem C2_voice_priority :
    (∀ (vom : Bool) (now : ℚ) (tsc : String) (s : AppState),
        matchAny (pyLower tsc) stopWords = true →
        voice_command vom now tsc s = ({ s with scroll_enabled := false }, [])) ∧
    (∀ (vom : Bool) (now : ℚ) (tsc : String) (s : AppState),
        matchAny (pyLower tsc) stopWords = false →
        matchAny (pyLower tsc) startWords = true →
        voice_command vom now tsc s = ({ s with scroll_enabled := true }, [])) ∧
    (∀ (vom : Bool) (now : ℚ) (tsc : String) (s : AppState),
        matchAny (pyLower tsc) stopWords = false →
        matchAny (pyLower tsc) startWords = false →
        matchAny (pyLower tsc) recalWords = true →
        voice_command vom now tsc s =
          ({ s with recalibrated := false, calibration_start := some now }, [])) ∧
    (∀ (vom : Bool) (now : ℚ) (tsc : String) (s : AppState),
        matchAny (pyLower tsc) stopWords = false →
        matchAny (pyLower tsc) startWords = false →
        matchAny (pyLower tsc) recalWords = false →
        matchAny (pyLower tsc) zoomInWords = true →
        voice_command vom now tsc s = (s, [Action.zoomControl ZoomMode.zin])) ∧
    (∀ (vom : Bool) (now : ℚ) (tsc : String) (s : AppState),
        matchAny (pyLower tsc) stopWords = false →
        matchAny (pyLower tsc) startWords = false →
        matchAny (pyLower tsc) recalWords = false →
        matchAny (pyLower tsc) zoomInWords = false →
        matchAny (pyLower tsc) zoomOutWords = true →
        voice_command vom now tsc s = (s, [Action.zoomControl ZoomMode.zout])) ∧
    (∀ (vom : Bool) (now : ℚ) (tsc : String) (s : AppState),
        matchAny (pyLower tsc) stopWords = false →
        matchAny (pyLower tsc) startWords = false →
        matchAny (pyLower tsc) recalWords = false →
        matchAny (pyLower tsc) zoomInWords = false →
        matchAny (pyLower tsc) zoomOutWords = false →
        matchAny (pyLower tsc) zoomResetWords = true →
        voice_command vom now tsc s = (s, [Action.zoomControl ZoomMode.zreset])) ∧
    (∀ (vom : Bool) (now : ℚ) (tsc : String) (s : AppState),
        matchAny (pyLower tsc) stopWords = false →
        matchAny (pyLower tsc) startWords = false →
        matchAny (pyLower tsc) recalWords = false →
        matchAny (pyLower tsc) zoomInWords = false →
        matchAny (pyLower tsc) zoomOutWords = false →
        matchAny (pyLower tsc) zoomResetWords = false →
        (vom && s.scroll_enabled) = false →
        voice_command vom now tsc s = (s, [])) ∧
    (∀ (vom : Bool) (now : ℚ) (tsc : String) (s : AppState),
        matchAny (pyLower tsc) stopWords = false →
        matchAny (pyLower tsc) startWords = false →
        matchAny (pyLower tsc) recalWords = false →
        matchAny (pyLower tsc) zoomInWords = false →
        matchAny (pyLower tsc) zoomOutWords = false →
        matchAny (pyLower tsc) zoomResetWords = false →
        (vom && s.scroll_enabled) = true →
        matchAny (pyLower tsc) upWords = true →
        voice_command vom now tsc s = (s, [Action.scrollOnce Dir.up])) ∧
    (∀ (vom : Bool) (now : ℚ) (tsc : String) (s : AppState),
        matchAny (pyLower tsc) stopWords = false →
        matchAny (pyLower tsc) startWords = false →
        matchAny (pyLower tsc) recalWords = false →
        matchAny (pyLower tsc) zoomInWords = false →
        matchAny (pyLower tsc) zoomOutWords = false →
        matchAny (pyLower tsc) zoomResetWords = false →
        (vom && s.scroll_enabled) = true →
        matchAny (pyLower tsc) upWords = false →
        matchAny (pyLower tsc) downWords = true →
        voice_command vom now tsc s = (s, [Action.scrollOnce Dir.down])) ∧
    (∀ (vom : Bool) (now : ℚ) (tsc : String) (s : AppState),
        matchAny (pyLower tsc) stopWords = false →
        matchAny (pyLower tsc) startWords = false →
        matchAny (pyLower tsc) recalWords = false →
        matchAny (pyLower tsc) zoomInWords = false →
        matchAny (pyLower tsc) zoomOutWords = false →
        matchAny (pyLower tsc) zoomResetWords = false →
        (vom && s.scroll_enabled) = true →
        matchAny (pyLower tsc) upWords = false →
        matchAny (pyLower tsc) downWords = false →
        matchAny (pyLower tsc) leftWords = true →
        voice_command vom now tsc s = (s, [Action.scrollOnce Dir.left])) ∧
    (∀ (vom : Bool) (now : ℚ) (tsc : String) (s : AppState),
        matchAny (pyLower tsc) stopWords = false →
        matchAny (pyLower tsc) startWords = false →
        matchAny (pyLower tsc) recalWords = false →
        matchAny (pyLower tsc) zoomInWords = false →
        matchAny (pyLower tsc) zoomOutWords = false →
        matchAny (pyLower tsc) zoomResetWords = false →
        (vom && s.scroll_enabled) = true →
        matchAny (pyLower tsc) upWords = false →
        matchAny (pyLower tsc) downWords = false →
        matchAny (pyLower tsc) leftWords = false →
        matchAny (pyLower tsc) rightWords = true →
        voice_command vom now tsc s = (s, [Action.scrollOnce Dir.right])) ∧
    (∀ (vom : Bool) (now : ℚ) (tsc : String) (s : AppState),
        matchAny (pyLower tsc) stopWords = false →
        matchAny (pyLower tsc) startWords = false →
        matchAny (pyLower tsc) recalWords = false →
        matchAny (pyLower tsc) zoomInWords = false →
        matchAny (pyLower tsc) zoomOutWords = false →
        matchAny (pyLower tsc) zoomResetWords = false →
        matchAny (pyLower tsc) upWords = false →
        matchAny (pyLower tsc) downWords = false →
        matchAny (pyLower tsc) leftWords = false →
        matchAny (pyLower tsc) rightWords = false →
        voice_command vom now tsc s = (s, [])) := by
  refine ⟨?_, ?_, ?_, ?_, ?_, ?_, ?_, ?_, ?_, ?_, ?_, ?_⟩
  · intro vom now tsc s h1
    have hne : pyLower tsc ≠ "" := by
      intro he; rw [he] at h1; exact absurd h1 (by decide)
    simp [voice_command, hne, h1]
  · intro vom now tsc s h1 h2
    have hne : pyLower tsc ≠ "" := by
      intro he; rw [he] at h2; exact absurd h2 (by decide)
    simp [voice_command, hne, h1, h2]
  · intro vom now tsc s h1 h2 h3
    have hne : pyLower tsc ≠ "" := by
      intro he; rw [he] at h3; exact absurd h3 (by decide)
    simp [voice_command, hne, h1, h2, h3]
  · intro vom now tsc s h1 h2 h3 h4
    have hne : pyLower tsc ≠ "" := by
      intro he; rw [he] at h4; exact absurd h4 (by decide)
    simp [voice_command, hne, h1, h2, h3, h4]
  · intro vom now tsc s h1 h2 h3 h4 h5
    have hne : pyLower tsc ≠ "" := by
      intro he; rw [he] at h5; exact absurd h5 (by decide)
    simp [voice_command, hne, h1, h2, h3, h4, h5]
  · intro vom now tsc s h1 h2 h3 h4 h5 h6
    have hne : pyLower tsc ≠ "" := by
      intro he; rw [he] at h6; exact absurd h6 (by decide)
    simp [voice_command, hne, h1, h2, h3, h4, h5, h6]
  · intro vom now tsc s h1 h2 h3 h4 h5 h6 h7
    by_cases he : pyLower tsc = "" <;>
      simp [voice_command, he, h1, h2, h3, h4, h5, h6, h7]
  · intro vom now tsc s h1 h2 h3 h4 h5 h6 h7 h8
    have hne : pyLower tsc ≠ "" := by
      intro he; rw [he] at h8; exact absurd h8 (by decide)
    simp [voice_command, hne, h1, h2, h3, h4, h5, h6, h7, h8]
  · intro vom now tsc s h1 h2 h3 h4 h5 h6 h7 h8 h9
    have hne : pyLower tsc ≠ "" := by
      intro he; rw [he] at h9; exact absurd h9 (by decide)
    simp [voice_command, hne, h1, h2, h3, h4, h5, h6, h7, h8, h9]
  · intro vom now tsc s h1 h2 h3 h4 h5 h6 h7 h8 h9 h10
    have hne : pyLower tsc ≠ "" := by
      intro he; rw [he] at h10; exact absurd h10 (by decide)
    simp [voice_command, hne, h1, h2, h3, h4, h5, h6, h7, h8, h9, h10]
  · intro vom now tsc s h1 h2 h3 h4 h5 h6 h7 h8 h9 h10 h11
    have hne : pyLower tsc ≠ "" := by
      intro he; rw [he] at h11; exact absurd h11 (by decide)
    simp [voice_command, hne, h1, h2, h3, h4, h5, h6, h7, h8, h9, h10, h11]
  · intro vom now tsc s h1 h2 h3 h4 h5 h6 h7 h8 h9 h10
    by_cases he : pyLower tsc = ""
    · simp [voice_command, he]
    · by_cases hg : (vom && s.scroll_enabled) = true <;>
        simp [voice_command, he, hg, h1, h2, h3, h4, h5, h6, h7, h8, h9, h10]

/-- Witness for C2: the spec's scenarios — "please stop now" disables
scrolling, "zoom in please" fires a zoom-in with the state unchanged, and
"left" in voice-only mode with scrolling enabled fires exactly one left
navigation action. -/
theorem C2_witness :
    voice_command false 0 ("please stop now") (initState 0) =
      ({ initState 0 with scroll_enabled := false }, []) ∧
    voice_command false 0 ("zoom in please") (initState 0) =
      (initState 0, [Action.zoomControl ZoomMode.zin]) ∧
    voice_command true 0 ("left") (initState 0) =
      (initState 0, [Action.scrollOnce Dir.left]) :=
  ⟨C2_voice_priority.1 false 0 ("please stop now") (initState 0) (by decide),
   C2_voice_priority.2.2.2.1 false 0 ("zoom in please") (initState 0)
     (by decide) (by decide) (by decide) (by decide),
   C2_voice_priority.2.2.2.2.2.2.2.2.2.1 true 0 ("left") (initState 0)
     (by decide) (by decide) (by decide) (by decide) (by decide) (by decide)
     (by decide) (by decide) (by decide) (by decide)⟩

/-- C7: any transcript containing a Stop-category keyword ("stop",
"pause", "dop", "top", "was", "cause") as a substring of its lower-cased
form makes the dispatcher take the first branch and set `scroll_enabled`
to false, whatever the mode, the prior flag value, and whatever other
keywords the transcript contains. -/
theorem C7_stop_disables_scroll :
    ∀ (vom : Bool) (now : ℚ) (tsc : String) (s : AppState) (w : String),
      w ∈ stopWords → wordIn w (pyLower tsc) = true →
      voice_command vom now tsc s = ({ s with scroll_enabled := false }, []) := by
  intro vom now tsc s w hw hword
  have h1 : matchAny (pyLower tsc) stopWords = true :=
    List.any_eq_true.mpr ⟨w, hw, hword⟩
  have hne : pyLower tsc ≠ "" := by
    intro he; rw [he] at h1; exact absurd h1 (by decide)
  simp [voice_command, hne, h1]

/-- Witness for C7: "Please STOP now and start" contains the Stop keyword
"stop" (and a Start keyword too); dispatching it from a state with
scrolling enabled disables scrolling. -/
theorem C7_witness :
    voice_command true 2 ("Please STOP now and start") (initState 0) =
      ({ initState 0 with scroll_enabled := false }, []) :=
  C7_stop_disables_scroll true 2 ("Please STOP now and start") (initState 0)
    ("stop") (by decide) (by decide)

/-! ## Frame-step branch lemmas -/

theorem frameStep_no_face (s : AppState) (inp : FrameIn) (h : inp.face = none) :
    frameStep s inp =
      some (if inp.time - s.last_face_seen_time > sleep_trigger_duration ∧
              s.sleep_mode = false
            then { s with sleep_mode := true } else s, []) := by
  simp only [frameStep, h]
  split <;> rfl

theorem frameStep_uncal_start (s : AppState) (inp : FrameIn) (f : FaceIn)
    (hface : inp.face = some f) (hrecal : s.recalibrated = false)
    (hcs : s.calibration_start = none) :
    frameStep s inp = some ({ s with
        last_face_seen_time := inp.time,
        sleep_mode := false,
        calibration_start := some inp.time }, []) := by
  simp [frameStep, hface, hrecal, hcs]

theorem frameStep_uncal_wait (s : AppState) (inp : FrameIn) (f : FaceIn) (c : ℚ)
    (hface : inp.face = some f) (hrecal : s.recalibrated = false)
    (hcs : s.calibration_start = some c) (hlt : ¬ inp.time - c ≥ 2) :
    frameStep s inp = some ({ s with
        last_face_seen_time := inp.time,
        sleep_mode := false }, []) := by
  simp [frameStep, hface, hrecal, hcs, hlt]

theorem frameStep_uncal_snapshot (s : AppState) (inp : FrameIn) (f : FaceIn) (c : ℚ)
    (hface : inp.face = some f) (hrecal : s.recalibrated = false)
    (hcs : s.calibration_start = some c) (hge : inp.time - c ≥ 2) :
    frameStep s inp = some ({ s with
        last_face_seen_time := inp.time,
        sleep_mode := false,
        pink_boxes := snapshotBoxes f s.pink_boxes,
        recalibrated := true,
        calibration_start := none }, []) := by
  simp [frameStep, hface, hrecal, hcs, hge]

theorem frameStep_calibrated (s : AppState) (inp : FrameIn) (f : FaceIn)
    (z10 z152 z168 : Zone)
    (hface : inp.face = some f) (hrecal : s.recalibrated = true)
    (h10 : List.lookup 10 s.pink_boxes = some z10)
    (h152 : List.lookup 152 s.pink_boxes = some z152)
    (h168 : List.lookup 168 s.pink_boxes = some z168) :
    frameStep s inp =
      some (calibratedFrame { s with
          last_face_seen_time := inp.time,
          sleep_mode := false } inp.time f z10 z152 z168) := by
  simp [frameStep, hface, hrecal, h10, h152, h168]

theorem lookup_assocInsert_self (k : ℕ) (v : Zone) (l : List (ℕ × Zone)) :
    List.lookup k (assocInsert k v l) = some v := by
  induction l with
  | nil => simp [assocInsert, List.lookup]
  | cons p t ih =>
      obtain ⟨k', v'⟩ := p
      by_cases h : k' = k
      · subst h
        simp [assocInsert, List.lookup]
      · have hb : (k == k') = false := beq_eq_false_iff_ne.mpr (Ne.symm h)
        simp [assocInsert, h, List.lookup, hb, ih]

theorem lookup_assocInsert_ne (k k' : ℕ) (v : Zone) (l : List (ℕ × Zone))
    (h : k' ≠ k) :
    List.lookup k' (assocInsert k v l) = List.lookup k' l := by
  have hb : (k' == k) = false := beq_eq_false_iff_ne.mpr h
  induction l with
  | nil => simp [assocInsert, List.lookup, hb]
  | cons p t ih =>
      obtain ⟨k0, v0⟩ := p
      by_cases h0 : k0 = k
      · subst h0
        simp [assocInsert, List.lookup, hb]
      · simp only [assocInsert, if_neg h0, List.lookup]
        cases hbk : (k' == k0) <;> simp [hbk, ih]

theorem lookup_snapshotBoxes (f : FaceIn) (boxes : List (ℕ × Zone)) :
    List.lookup 10 (snapshotBoxes f boxes) = some (mkZone f.p10) ∧
    List.lookup 152 (snapshotBoxes f boxes) = some (mkZone f.p152) ∧
    List.lookup 168 (snapshotBoxes f boxes) = some (mkZone f.p168) := by
  unfold snapshotBoxes
  refine ⟨?_, ?_, ?_⟩
  · rw [lookup_assocInsert_ne 168 10 _ _ (by decide),
      lookup_assocInsert_ne 152 10 _ _ (by decide), lookup_assocInsert_self]
  · rw [lookup_assocInsert_ne 168 152 _ _ (by decide), lookup_assocInsert_self]
  · rw [lookup_assocInsert_self]

/-- C6: while `recalibrated` is false, a face frame with no running timer
only starts `calibration_start`; face frames within 2.0 s of
`calibration_start` change neither the flag, the timer, nor the zones;
no-face frames leave `calibration_start` (and everything calibration-
related) untouched — the hold is wall-clock, not attendance-gated; and the
first face frame at ≥ 2.0 s snapshots the zones, sets `recalibrated` and
clears `calibration_start`. -/
theorem C6_initial_calibration :
    (∀ (s : AppState) (inp : FrameIn), s.recalibrated = false → inp.face = none →
        ∃ r, frameStep s inp = some r ∧
          r.1.calibration_start = s.calibration_start ∧
          r.1.recalibrated = false ∧ r.1.pink_boxes = s.pink_boxes) ∧
    (∀ (s : AppState) (inp : FrameIn) (f : FaceIn), s.recalibrated = false →
        inp.face = some f → s.calibration_start = none →
        frameStep s inp = some ({ s with
            last_face_seen_time := inp.time,
            sleep_mode := false,
            calibration_start := some inp.time }, [])) ∧
    (∀ (s : AppState) (inp : FrameIn) (f : FaceIn) (c : ℚ), s.recalibrated = false →
        inp.face = some f → s.calibration_start = some c → inp.time - c < 2 →
        frameStep s inp = some ({ s with
            last_face_seen_time := inp.time,
            sleep_mode := false }, [])) ∧
    (∀ (s : AppState) (inp : FrameIn) (f : FaceIn) (c : ℚ), s.recalibrated = false →
        inp.face = some f → s.calibration_start = some c → inp.time - c ≥ 2 →
        frameStep s inp = some ({ s with
            last_face_seen_time := inp.time,
            sleep_mode := false,
            pink_boxes := snapshotBoxes f s.pink_boxes,
            recalibrated := true,
            calibration_start := none }, [])) := by
  refine ⟨?_, ?_, ?_, ?_⟩
  · intro s inp hrecal hface
    rw [frameStep_no_face s inp hface]
    refine ⟨_, rfl, ?_⟩
    split <;> simp [hrecal]
  · intro s inp f hrecal hface hcs
    exact frameStep_uncal_start s inp f hface hrecal hcs
  · intro s inp f c hrecal hface hcs hlt
    exact frameStep_uncal_wait s inp f c hface hrecal hcs (not_le.mpr hlt)
  · intro s inp f c hrecal hface hcs hge
    exact frameStep_uncal_snapshot s inp f c hface hrecal hcs hge

/-- Witness for C6, on the startup run: the first face frame (t = 1) only
arms the timer, a face frame at t = 2.5 (elapsed 1.5 s) changes nothing,
a no-face frame leaves `calibration_start` alone, and the face frame at
t = 3 (elapsed 2 s) snapshots the zones and completes calibration. -/
theorem C6_witness :
    frameStep (initState 0) ⟨1, some faceSample⟩ = some (calibStep1, []) ∧
    frameStep calibStep1 ⟨mkRat 5 2, some faceSample⟩ =
      some ({ calibStep1 with last_face_seen_time := mkRat 5 2 }, []) ∧
    (∃ r, frameStep calibStep1 ⟨2, none⟩ = some r ∧
      r.1.calibration_start = calibStep1.calibration_start ∧
      r.1.recalibrated = false ∧ r.1.pink_boxes = calibStep1.pink_boxes) ∧
    frameStep calibStep1 ⟨3, some faceSample⟩ =
      some ({ calibStep1 with
          last_face_seen_time := 3,
          pink_boxes := snapshotBoxes faceSample [],
          recalibrated := true,
          calibration_start := none }, []) := by
  refine ⟨?_, ?_, ?_, ?_⟩
  · have h := C6_initial_calibration.2.1 (initState 0) ⟨1, some faceSample⟩
      faceSample rfl rfl rfl
    exact h.trans (by decide)
  · have h := C6_initial_calibration.2.2.1 calibStep1 ⟨mkRat 5 2, some faceSample⟩
      faceSample 1 rfl rfl rfl (by decide)
    exact h.trans (by decide)
  · exact C6_initial_calibration.1 calibStep1 ⟨2, none⟩ rfl rfl
  · have h := C6_initial_calibration.2.2.2 calibStep1 ⟨3, some faceSample⟩
      faceSample 1 rfl rfl rfl (by decide)
    exact h.trans (by decide)

/-- C5: every calibration snapshot — the initial one and an automatic
recalibration — rewrites the zones of all three tracked landmarks in the
same frame, each to `(x − 20, x + 20, y − 20, y + 20)` around that
landmark's current pixel position `(x, y)`. -/
theorem C5_snapshot_zones :
    (∀ (s : AppState) (inp : FrameIn) (f : FaceIn) (c : ℚ),
        inp.face = some f → s.recalibrated = false →
        s.calibration_start = some c → inp.time - c ≥ 2 →
        ∃ r, frameStep s inp = some r ∧ r.1.recalibrated = true ∧
          List.lookup 10 r.1.pink_boxes = some
            { left := f.p10.1 - 20, right := f.p10.1 + 20,
              top := f.p10.2 - 20, bottom := f.p10.2 + 20 } ∧
          List.lookup 152 r.1.pink_boxes = some
            { left := f.p152.1 - 20, right := f.p152.1 + 20,
              top := f.p152.2 - 20, bottom := f.p152.2 + 20 } ∧
          List.lookup 168 r.1.pink_boxes = some
            { left := f.p168.1 - 20, right := f.p168.1 + 20,
              top := f.p168.2 - 20, bottom := f.p168.2 + 20 }) ∧
    (∀ (s : AppState) (inp : FrameIn) (f : FaceIn) (z10 z152 z168 : Zone) (r0 : ℚ),
        inp.face = some f → s.recalibrated = true →
        List.lookup 10 s.pink_boxes = some z10 →
        List.lookup 152 s.pink_boxes = some z152 →
        List.lookup 168 s.pink_boxes = some z168 →
        is_all_inside_boxes z10 z152 z168 f = true →
        s.recalibration_timer_start = some r0 →
        inp.time - r0 ≥ recalibration_hold_time →
        ∃ r, frameStep s inp = some r ∧
          List.lookup 10 r.1.pink_boxes = some
            { left := f.p10.1 - 20, right := f.p10.1 + 20,
              top := f.p10.2 - 20, bottom := f.p10.2 + 20 } ∧
          List.lookup 152 r.1.pink_boxes = some
            { left := f.p152.1 - 20, right := f.p152.1 + 20,
              top := f.p152.2 - 20, bottom := f.p152.2 + 20 } ∧
          List.lookup 168 r.1.pink_boxes = some
            { left := f.p168.1 - 20, right := f.p168.1 + 20,
              top := f.p168.2 - 20, bottom := f.p168.2 + 20 }) := by
  have hmk : ∀ f : FaceIn, mkZone f.p10 =
      { left := f.p10.1 - 20, right := f.p10.1 + 20,
        top := f.p10.2 - 20, bottom := f.p10.2 + 20 } := by
    intro f; simp [mkZone, dead_zone]
  have hmk152 : ∀ f : FaceIn, mkZone f.p152 =
      { left := f.p152.1 - 20, right := f.p152.1 + 20,
        top := f.p152.2 - 20, bottom := f.p152.2 + 20 } := by
    intro f; simp [mkZone, dead_zone]
  have hmk168 : ∀ f : FaceIn, mkZone f.p168 =
      { left := f.p168.1 - 20, right := f.p168.1 + 20,
        top := f.p168.2 - 20, bottom := f.p168.2 + 20 } := by
    intro f; simp [mkZone, dead_zone]
  constructor
  · intro s inp f c hface hrecal hcs hge
    refine ⟨_, frameStep_uncal_snapshot s inp f c hface hrecal hcs hge, rfl, ?_⟩
    have h := lookup_snapshotBoxes f s.pink_boxes
    rw [← hmk f, ← hmk152 f, ← hmk168 f]
    exact ⟨h.1, h.2.1, h.2.2⟩
  · intro s inp f z10 z152 z168 r0 hface hrecal h10 h152 h168 hins htimer hge
    refine ⟨_, frameStep_calibrated s inp f z10 z152 z168 hface hrecal h10 h152 h168, ?_⟩
    have hboxes : ((calibratedFrame { s with
          last_face_seen_time := inp.time,
          sleep_mode := false } inp.time f z10 z152 z168).1).pink_boxes =
        snapshotBoxes f s.pink_boxes := by
      simp [calibratedFrame, hins, htimer, hge]
    rw [hboxes, ← hmk f, ← hmk152 f, ← hmk168 f]
    have h := lookup_snapshotBoxes f s.pink_boxes
    exact ⟨h.1, h.2.1, h.2.2⟩

/-- Witness for C5: the initial snapshot at t = 3 from the startup run, and
an automatic recalibration snapshot from `calibSample` with the timer
armed at t = 10 and the hold satisfied at t = 13 with `faceSample2`. -/
theorem C5_witness :
    (∃ r, frameStep calibStep1 ⟨3, some faceSample⟩ = some r ∧
      r.1.recalibrated = true ∧
      List.lookup 10 r.1.pink_boxes = some
        { left := 80, right := 120, top := 30, bottom := 70 } ∧
      List.lookup 152 r.1.pink_boxes = some
        { left := 80, right := 120, top := 180, bottom := 220 } ∧
      List.lookup 168 r.1.pink_boxes = some
        { left := 80, right := 120, top := 105, bottom := 145 }) ∧
    (∃ r, frameStep { calibSample with recalibration_timer_start := some 10 }
        ⟨13, some faceSample2⟩ = some r ∧
      List.lookup 10 r.1.pink_boxes = some
        { left := 90, right := 130, top := 40, bottom := 80 } ∧
      List.lookup 152 r.1.pink_boxes = some
        { left := 90, right := 130, top := 190, bottom := 230 } ∧
      List.lookup 168 r.1.pink_boxes = some
        { left := 90, right := 130, top := 115, bottom := 155 }) :=
  ⟨C5_snapshot_zones.1 calibStep1 ⟨3, some faceSample⟩ faceSample 1
      rfl rfl rfl (by decide),
   C5_snapshot_zones.2 { calibSample with recalibration_timer_start := some 10 }
      ⟨13, some faceSample2⟩ faceSample2
      { left := 80, right := 120, top := 30, bottom := 70 }
      { left := 80, right := 120, top := 180, bottom := 220 }
      { left := 80, right := 120, top := 105, bottom := 145 }
      10 rfl rfl (by decide) (by decide) (by decide) (by decide) rfl (by decide)⟩

theorem calibratedFrame_fields (s : AppState) (now : ℚ) (f : FaceIn)
    (z10 z152 z168 : Zone) :
    (calibratedFrame s now f z10 z152 z168).1.scroll_enabled = s.scroll_enabled ∧
    (calibratedFrame s now f z10 z152 z168).1.recalibrated = s.recalibrated ∧
    (calibratedFrame s now f z10 z152 z168).1.calibration_start = s.calibration_start ∧
    (calibratedFrame s now f z10 z152 z168).1.sleep_mode = s.sleep_mode ∧
    (calibratedFrame s now f z10 z152 z168).1.last_face_seen_time = s.last_face_seen_time ∧
    ((calibratedFrame s now f z10 z152 z168).1.pink_boxes = s.pink_boxes ∨
      (calibratedFrame s now f z10 z152 z168).1.pink_boxes =
        snapshotBoxes f s.pink_boxes) := by
  simp only [calibratedFrame]
  split
  · split
    · exact ⟨rfl, rfl, rfl, rfl, rfl, Or.inl rfl⟩
    · split
      · exact ⟨rfl, rfl, rfl, rfl, rfl, Or.inr rfl⟩
      · exact ⟨rfl, rfl, rfl, rfl, rfl, Or.inl rfl⟩
  · exact ⟨rfl, rfl, rfl, rfl, rfl, Or.inl rfl⟩

theorem calibratedFrame_disabled (s : AppState) (now : ℚ) (f : FaceIn)
    (z10 z152 z168 : Zone) (h : s.scroll_enabled = false) :
    (calibratedFrame s now f z10 z152 z168).2 = [] ∧
    (calibratedFrame s now f z10 z152 z168).1.scroll = s.scroll := by
  simp only [calibratedFrame, h, process_scroll_disabled]
  split
  · split
    · exact ⟨rfl, rfl⟩
    · split <;> exact ⟨rfl, rfl⟩
  · exact ⟨rfl, rfl⟩

/-- C8: a frame processed while `scroll_enabled` is false emits no scroll
action and leaves every direction's `start_time` and `last_scroll_time`
exactly as they were, whatever the trigger conditions are. -/
theorem C8_disabled_frame_inert :
    ∀ (s : AppState) (inp : FrameIn) (r : AppState × List Action),
      s.scroll_enabled = false → frameStep s inp = some r →
      r.2 = [] ∧ r.1.scroll = s.scroll := by
  intro s inp r hse hstep
  cases hface : inp.face with
  | none =>
      rw [frameStep_no_face s inp hface] at hstep
      rw [← Option.some.inj hstep]
      constructor
      · rfl
      · split <;> rfl
  | some f =>
      by_cases hrecal : s.recalibrated = true
      · simp only [frameStep, hface, hrecal, if_true] at hstep
        split at hstep
        · rw [← Option.some.inj hstep]
          exact calibratedFrame_disabled _ inp.time f _ _ _ hse
        · exact Option.noConfusion hstep
      · have hrf : s.recalibrated = false := Bool.eq_false_iff.mpr hrecal
        cases hcs : s.calibration_start with
        | none =>
            rw [frameStep_uncal_start s inp f hface hrf hcs] at hstep
            rw [← Option.some.inj hstep]
            exact ⟨rfl, rfl⟩
        | some c =>
            by_cases hge : inp.time - c ≥ 2
            · rw [frameStep_uncal_snapshot s inp f c hface hrf hcs hge] at hstep
              rw [← Option.some.inj hstep]
              exact ⟨rfl, rfl⟩
            · rw [frameStep_uncal_wait s inp f c hface hrf hcs hge] at hstep
              rw [← Option.some.inj hstep]
              exact ⟨rfl, rfl⟩

/-- Witness for C8: from the calibrated state with scrolling disabled by
voice, a frame with the head far to the left (left trigger true) emits
nothing and leaves all four scroll timers untouched. -/
theorem C8_witness :
    ∃ r, frameStep { calibSample with scroll_enabled := false }
        ⟨5, some faceLeft⟩ = some r ∧
      r.2 = [] ∧ r.1.scroll = calibSample.scroll :=
  ⟨({ calibSample with scroll_enabled := false, last_face_seen_time := 5 }, []),
   by decide,
   C8_disabled_frame_inert { calibSample with scroll_enabled := false }
     ⟨5, some faceLeft⟩
     ({ calibSample with scroll_enabled := false, last_face_seen_time := 5 }, [])
     rfl (by decide)⟩

/-- C9: on a no-face frame the only state change is
`sleep_mode := sleep_mode || (now − last_face_seen_time > 5.0)` — so
sleep is entered exactly when the last face detection is more than 5.0 s
old and sleep was not already on, with `scroll_enabled`, the calibration
flags and timestamps, the zones and the scroll timers untouched; a face
frame always clears `sleep_mode`; and the rest of a face frame's
processing is entirely independent of the previous `sleep_mode` value. -/
theorem C9_sleep_monitor :
    (∀ (s : AppState) (inp : FrameIn), inp.face = none →
        frameStep s inp = some ({ s with
          sleep_mode := (s.sleep_mode ||
            decide (inp.time - s.last_face_seen_time > sleep_trigger_duration)) },
          [])) ∧
    (∀ (s : AppState) (inp : FrameIn) (f : FaceIn) (r : AppState × List Action),
        inp.face = some f → frameStep s inp = some r →
        r.1.sleep_mode = false) ∧
    (∀ (s : AppState) (inp : FrameIn) (f : FaceIn) (b1 b2 : Bool),
        inp.face = some f →
        frameStep { s with sleep_mode := b1 } inp =
          frameStep { s with sleep_mode := b2 } inp) := by
  refine ⟨?_, ?_, ?_⟩
  · intro s inp h
    rw [frameStep_no_face s inp h]
    by_cases hc : inp.time - s.last_face_seen_time > sleep_trigger_duration
    · by_cases hsm : s.sleep_mode = true
      · rw [if_neg (fun hx => by rw [hsm] at hx; exact Bool.noConfusion hx.2)]
        have hb : (s.sleep_mode ||
            decide (inp.time - s.last_face_seen_time > sleep_trigger_duration)) =
            s.sleep_mode := by
          rw [hsm]; rfl
        rw [hb]
      · have hsm' : s.sleep_mode = false := Bool.eq_false_iff.mpr hsm
        rw [if_pos ⟨hc, hsm'⟩]
        simp [hsm', hc]
    · rw [if_neg (fun hx => hc hx.1)]
      rw [decide_eq_false hc, Bool.or_false]
  · intro s inp f r hface hstep
    by_cases hrecal : s.recalibrated = true
    · simp only [frameStep, hface, hrecal, if_true] at hstep
      split at hstep
      · rw [← Option.some.inj hstep]
        exact (calibratedFrame_fields _ inp.time f _ _ _).2.2.2.1
      · exact Option.noConfusion hstep
    · have hrf : s.recalibrated = false := Bool.eq_false_iff.mpr hrecal
      cases hcs : s.calibration_start with
      | none =>
          rw [frameStep_uncal_start s inp f hface hrf hcs] at hstep
          rw [← Option.some.inj hstep]
      | some c =>
          by_cases hge : inp.time - c ≥ 2
          · rw [frameStep_uncal_snapshot s inp f c hface hrf hcs hge] at hstep
            rw [← Option.some.inj hstep]
          · rw [frameStep_uncal_wait s inp f c hface hrf hcs hge] at hstep
            rw [← Option.some.inj hstep]
  · intro s inp f b1 b2 hface
    obtain ⟨t, fc⟩ := inp
    simp only at hface
    subst hface
    rfl

/-- Witness for C9: at t = 9 with the face last seen at t = 3 (6 s > 5 s)
a no-face frame turns `sleep_mode` on and changes nothing else; a face
frame from the sleeping state wakes up (`sleep_mode = false`); and the
sleeping and awake states process that face frame to the same result. -/
theorem C9_witness :
    frameStep calibSample ⟨9, none⟩ =
      some ({ calibSample with
        sleep_mode := (calibSample.sleep_mode ||
          decide ((9 : ℚ) - calibSample.last_face_seen_time > sleep_trigger_duration)) },
        []) ∧
    ({ calibSample with
        sleep_mode := false,
        last_face_seen_time := 10,
        recalibration_timer_start := some 10 }, ([] : List Action)).1.sleep_mode
      = false ∧
    frameStep { calibSample with sleep_mode := true } ⟨10, some faceSample⟩ =
      frameStep { calibSample with sleep_mode := false } ⟨10, some faceSample⟩ :=
  ⟨C9_sleep_monitor.1 calibSample ⟨9, none⟩ rfl,
   C9_sleep_monitor.2.1 { calibSample with sleep_mode := true }
     ⟨10, some faceSample⟩ faceSample
     ({ calibSample with
         sleep_mode := false,
         last_face_seen_time := 10,
         recalibration_timer_start := some 10 }, []) rfl (by decide),
   C9_sleep_monitor.2.2 calibSample ⟨10, some faceSample⟩ faceSample true false rfl⟩

theorem calibratedFrame_inside_arm (s : AppState) (now : ℚ) (f : FaceIn)
    (z10 z152 z168 : Zone)
    (hins : is_all_inside_boxes z10 z152 z168 f = true)
    (ht : s.recalibration_timer_start = none) :
    (calibratedFrame s now f z10 z152 z168).1.recalibration_timer_start = some now ∧
    (calibratedFrame s now f z10 z152 z168).1.pink_boxes = s.pink_boxes := by
  simp only [calibratedFrame, hins, if_true, ht]
  constructor <;> first | rfl | trivial

theorem calibratedFrame_inside_fire (s : AppState) (now : ℚ) (f : FaceIn)
    (z10 z152 z168 : Zone) (r0 : ℚ)
    (hins : is_all_inside_boxes z10 z152 z168 f = true)
    (ht : s.recalibration_timer_start = some r0)
    (hge : now - r0 ≥ recalibration_hold_time) :
    (calibratedFrame s now f z10 z152 z168).1.pink_boxes =
      snapshotBoxes f s.pink_boxes ∧
    (calibratedFrame s now f z10 z152 z168).1.recalibration_timer_start = none := by
  simp only [calibratedFrame, hins, if_true, ht, hge]
  constructor <;> first | rfl | trivial

theorem calibratedFrame_inside_wait (s : AppState) (now : ℚ) (f : FaceIn)
    (z10 z152 z168 : Zone) (r0 : ℚ)
    (hins : is_all_inside_boxes z10 z152 z168 f = true)
    (ht : s.recalibration_timer_start = some r0)
    (hlt : ¬ now - r0 ≥ recalibration_hold_time) :
    (calibratedFrame s now f z10 z152 z168).1.recalibration_timer_start = some r0 ∧
    (calibratedFrame s now f z10 z152 z168).1.pink_boxes = s.pink_boxes := by
  simp only [calibratedFrame, hins, if_true, ht, hlt]
  exact ⟨rfl, rfl⟩

theorem calibratedFrame_outside (s : AppState) (now : ℚ) (f : FaceIn)
    (z10 z152 z168 : Zone)
    (hins : is_all_inside_boxes z10 z152 z168 f = false) :
    (calibratedFrame s now f z10 z152 z168).1.recalibration_timer_start = none ∧
    (calibratedFrame s now f z10 z152 z168).1.pink_boxes = s.pink_boxes := by
  simp only [calibratedFrame, hins]
  exact ⟨rfl, rfl⟩

/-- C4 fails as stated: in the concrete run below the timer is armed at
t = 3.5, the hold is interrupted at t = 4 by a frame with no detected face
(so not all tracked landmarks lie inside their zones on that frame), yet
`recalibration_timer_start` is NOT reset — the no-face branch leaves it
alone — and on the next all-inside frame at t = 6.6 (3.1 s after arming)
the zones ARE re-centred, despite the interrupted hold. The claim demands
an immediate reset and no zone change for every interrupted hold. -/
theorem C4_counterexample :
    (runFrames (initState 0)
      [⟨1, some faceSample⟩, ⟨3, some faceSample⟩, ⟨mkRat 7 2, some faceSample⟩,
       ⟨4, none⟩]).map
        (fun st => (st.recalibration_timer_start, st.pink_boxes)) =
      some (some (mkRat 7 2),
        [(10, { left := 80, right := 120, top := 30, bottom := 70 }),
         (152, { left := 80, right := 120, top := 180, bottom := 220 }),
         (168, { left := 80, right := 120, top := 105, bottom := 145 })]) ∧
    (runFrames (initState 0)
      [⟨1, some faceSample⟩, ⟨3, some faceSample⟩, ⟨mkRat 7 2, some faceSample⟩,
       ⟨4, none⟩, ⟨mkRat 33 5, some faceSample2⟩]).map (fun st => st.pink_boxes) =
      some
        [(10, { left := 90, right := 130, top := 40, bottom := 80 }),
         (152, { left := 90, right := 130, top := 190, bottom := 230 }),
         (168, { left := 90, right := 130, top := 115, bottom := 155 })] :=
  ⟨by decide, by decide⟩

/-- C4 amended: on a calibrated face frame, all-inside with no timer arms
the timer (no zone change); all-inside with the timer ≥ 3.0 s old
re-centres all zones on the current positions and clears the timer;
all-inside below 3.0 s changes nothing; a face frame with any landmark
outside resets the timer immediately with no zone change; but a frame
with NO detected face leaves both the timer and the zones untouched — a
face dropout neither resets nor advances the hold. -/
theorem C4_recalibration_hold :
    (∀ (s : AppState) (inp : FrameIn) (f : FaceIn) (z10 z152 z168 : Zone),
        inp.face = some f → s.recalibrated = true →
        List.lookup 10 s.pink_boxes = some z10 →
        List.lookup 152 s.pink_boxes = some z152 →
        List.lookup 168 s.pink_boxes = some z168 →
        is_all_inside_boxes z10 z152 z168 f = true →
        s.recalibration_timer_start = none →
        ∃ r, frameStep s inp = some r ∧
          r.1.recalibration_timer_start = some inp.time ∧
          r.1.pink_boxes = s.pink_boxes) ∧
    (∀ (s : AppState) (inp : FrameIn) (f : FaceIn) (z10 z152 z168 : Zone) (r0 : ℚ),
        inp.face = some f → s.recalibrated = true →
        List.lookup 10 s.pink_boxes = some z10 →
        List.lookup 152 s.pink_boxes = some z152 →
        List.lookup 168 s.pink_boxes = some z168 →
        is_all_inside_boxes z10 z152 z168 f = true →
        s.recalibration_timer_start = some r0 →
        inp.time - r0 ≥ recalibration_hold_time →
        ∃ r, frameStep s inp = some r ∧
          r.1.pink_boxes = snapshotBoxes f s.pink_boxes ∧
          r.1.recalibration_timer_start = none) ∧
    (∀ (s : AppState) (inp : FrameIn) (f : FaceIn) (z10 z152 z168 : Zone) (r0 : ℚ),
        inp.face = some f → s.recalibrated = true →
        List.lookup 10 s.pink_boxes = some z10 →
        List.lookup 152 s.pink_boxes = some z152 →
        List.lookup 168 s.pink_boxes = some z168 →
        is_all_inside_boxes z10 z152 z168 f = true →
        s.recalibration_timer_start = some r0 →
        ¬ inp.time - r0 ≥ recalibration_hold_time →
        ∃ r, frameStep s inp = some r ∧
          r.1.recalibration_timer_start = some r0 ∧
          r.1.pink_boxes = s.pink_boxes) ∧
    (∀ (s : AppState) (inp : FrameIn) (f : FaceIn) (z10 z152 z168 : Zone),
        inp.face = some f → s.recalibrated = true →
        List.lookup 10 s.pink_boxes = some z10 →
        List.lookup 152 s.pink_boxes = some z152 →
        List.lookup 168 s.pink_boxes = some z168 →
        is_all_inside_boxes z10 z152 z168 f = false →
        ∃ r, frameStep s inp = some r ∧
          r.1.recalibration_timer_start = none ∧
          r.1.pink_boxes = s.pink_boxes) ∧
    (∀ (s : AppState) (inp : FrameIn), inp.face = none →
        ∃ r, frameStep s inp = some r ∧
          r.1.recalibration_timer_start = s.recalibration_timer_start ∧
          r.1.pink_boxes = s.pink_boxes) := by
  refine ⟨?_, ?_, ?_, ?_, ?_⟩
  · intro s inp f z10 z152 z168 hface hrecal h10 h152 h168 hins ht
    exact ⟨_, frameStep_calibrated s inp f z10 z152 z168 hface hrecal h10 h152 h168,
      calibratedFrame_inside_arm _ inp.time f z10 z152 z168 hins ht⟩
  · intro s inp f z10 z152 z168 r0 hface hrecal h10 h152 h168 hins ht hge
    exact ⟨_, frameStep_calibrated s inp f z10 z152 z168 hface hrecal h10 h152 h168,
      calibratedFrame_inside_fire _ inp.time f z10 z152 z168 r0 hins ht hge⟩
  · intro s inp f z10 z152 z168 r0 hface hrecal h10 h152 h168 hins ht hlt
    exact ⟨_, frameStep_calibrated s inp f z10 z152 z168 hface hrecal h10 h152 h168,
      calibratedFrame_inside_wait _ inp.time f z10 z152 z168 r0 hins ht hlt⟩
  · intro s inp f z10 z152 z168 hface hrecal h10 h152 h168 hins
    exact ⟨_, frameStep_calibrated s inp f z10 z152 z168 hface hrecal h10 h152 h168,
      calibratedFrame_outside _ inp.time f z10 z152 z168 hins⟩
  · intro s inp hface
    rw [frameStep_no_face s inp hface]
    refine ⟨_, rfl, ?_, ?_⟩ <;> (split <;> rfl)

/-- Witness for C4 (amended): from the calibrated state with the timer
armed at t = 10, an all-inside frame at t = 13 re-centres the zones and
clears the timer; and a no-face frame leaves timer and zones untouched. -/
theorem C4_witness :
    (∃ r, frameStep { calibSample with recalibration_timer_start := some 10 }
        ⟨13, some faceSample2⟩ = some r ∧
      r.1.pink_boxes = snapshotBoxes faceSample2 calibSample.pink_boxes ∧
      r.1.recalibration_timer_start = none) ∧
    (∃ r, frameStep calibSample ⟨4, none⟩ = some r ∧
      r.1.recalibration_timer_start = calibSample.recalibration_timer_start ∧
      r.1.pink_boxes = calibSample.pink_boxes) :=
  ⟨C4_recalibration_hold.2.1 { calibSample with recalibration_timer_start := some 10 }
      ⟨13, some faceSample2⟩ faceSample2
      { left := 80, right := 120, top := 30, bottom := 70 }
      { left := 80, right := 120, top := 180, bottom := 220 }
      { left := 80, right := 120, top := 105, bottom := 145 }
      10 rfl rfl (by decide) (by decide) (by decide) (by decide) rfl (by decide),
   C4_recalibration_hold.2.2.2.2 calibSample ⟨4, none⟩ rfl⟩

theorem voice_command_boxes (vom : Bool) (now : ℚ) (tsc : String) (s : AppState) :
    ((voice_command vom now tsc s).1).pink_boxes = s.pink_boxes ∧
    (((voice_command vom now tsc s).1).recalibrated = s.recalibrated ∨
      ((voice_command vom now tsc s).1).recalibrated = false) := by
  simp only [voice_command]
  by_cases h0 : pyLower tsc = ""
  · simp [h0]
  simp only [if_neg h0]
  by_cases h1 : matchAny (pyLower tsc) stopWords = true
  · simp [h1]
  simp only [if_neg h1]
  by_cases h2 : matchAny (pyLower tsc) startWords = true
  · simp [h2]
  simp only [if_neg h2]
  by_cases h3 : matchAny (pyLower tsc) recalWords = true
  · simp [h3]
  simp only [if_neg h3]
  by_cases h4 : matchAny (pyLower tsc) zoomInWords = true
  · simp [h4]
  simp only [if_neg h4]
  by_cases h5 : matchAny (pyLower tsc) zoomOutWords = true
  · simp [h5]
  simp only [if_neg h5]
  by_cases h6 : matchAny (pyLower tsc) zoomResetWords = true
  · simp [h6]
  simp only [if_neg h6]
  by_cases h7 : (vom && s.scroll_enabled) = true
  · simp only [if_pos h7]
    by_cases h8 : matchAny (pyLower tsc) upWords = true
    · simp [h8]
    simp only [if_neg h8]
    by_cases h9 : matchAny (pyLower tsc) downWords = true
    · simp [h9]
    simp only [if_neg h9]
    by_cases h10 : matchAny (pyLower tsc) leftWords = true
    · simp [h10]
    simp only [if_neg h10]
    by_cases h11 : matchAny (pyLower tsc) rightWords = true
    · simp [h11]
    simp [h11]
  · simp [h7]

theorem frameStep_boxesOK (s : AppState) (inp : FrameIn)
    (r : AppState × List Action)
    (h : frameStep s inp = some r) (hok : boxesOK s) : boxesOK r.1 := by
  cases hface : inp.face with
  | none =>
      rw [frameStep_no_face s inp hface] at h
      rw [← Option.some.inj h]
      split
      · exact hok
      · exact hok
  | some f =>
      by_cases hrecal : s.recalibrated = true
      · obtain ⟨hs10, hs152, hs168⟩ := hok hrecal
        obtain ⟨z10, h10⟩ := Option.isSome_iff_exists.mp hs10
        obtain ⟨z152, h152⟩ := Option.isSome_iff_exists.mp hs152
        obtain ⟨z168, h168⟩ := Option.isSome_iff_exists.mp hs168
        rw [frameStep_calibrated s inp f z10 z152 z168 hface hrecal
          h10 h152 h168] at h
        rw [← Option.some.inj h]
        intro hx
        rcases (calibratedFrame_fields { s with
            last_face_seen_time := inp.time,
            sleep_mode := false } inp.time f z10 z152 z168).2.2.2.2.2 with hpk | hpk
        · rw [hpk]
          exact ⟨Option.isSome_iff_exists.mpr ⟨z10, h10⟩,
            Option.isSome_iff_exists.mpr ⟨z152, h152⟩,
            Option.isSome_iff_exists.mpr ⟨z168, h168⟩⟩
        · rw [hpk]
          have hl := lookup_snapshotBoxes f s.pink_boxes
          exact ⟨Option.isSome_iff_exists.mpr ⟨mkZone f.p10, hl.1⟩,
            Option.isSome_iff_exists.mpr ⟨mkZone f.p152, hl.2.1⟩,
            Option.isSome_iff_exists.mpr ⟨mkZone f.p168, hl.2.2⟩⟩
      · have hrf : s.recalibrated = false := Bool.eq_false_iff.mpr hrecal
        cases hcs : s.calibration_start with
        | none =>
            rw [frameStep_uncal_start s inp f hface hrf hcs] at h
            rw [← Option.some.inj h]
            intro hx
            exact absurd (hrf ▸ hx) (by simp)
        | some c =>
            by_cases hge : inp.time - c ≥ 2
            · rw [frameStep_uncal_snapshot s inp f c hface hrf hcs hge] at h
              rw [← Option.some.inj h]
              intro hx
              have hl := lookup_snapshotBoxes f s.pink_boxes
              exact ⟨Option.isSome_iff_exists.mpr ⟨mkZone f.p10, hl.1⟩,
                Option.isSome_iff_exists.mpr ⟨mkZone f.p152, hl.2.1⟩,
                Option.isSome_iff_exists.mpr ⟨mkZone f.p168, hl.2.2⟩⟩
            · rw [frameStep_uncal_wait s inp f c hface hrf hcs hge] at h
              rw [← Option.some.inj h]
              intro hx
              exact absurd (hrf ▸ hx) (by simp)

theorem reachable_boxesOK (s : AppState) (h : Reachable s) : boxesOK s := by
  induction h with
  | init t0 =>
      intro hx
      exact Bool.noConfusion hx
  | frame hr hstep ih =>
      exact frameStep_boxesOK _ _ _ hstep ih
  | voice hr hstep ih =>
      rename_i s0 s1 vom now tsc as
      have hs1 : s1 = (voice_command vom now tsc s0).1 := by rw [hstep]
      obtain ⟨hpk, hrec⟩ := voice_command_boxes vom now tsc s0
      intro hx
      rw [hs1, hpk]
      rcases hrec with he | he
      · exact ih (by rw [← he, ← hs1]; exact hx)
      · rw [hs1] at hx
        rw [he] at hx
        exact Bool.noConfusion hx

/-- C10: from any reachable state (startup, frame steps and voice steps
interleaved), whenever `recalibrated` is true `pink_boxes` holds a zone
for each of the three tracked indices, so every `pink_boxes[idx]` lookup
of the calibrated path — drawing, gaze bounds and `is_all_inside_boxes`
— succeeds and the `KeyError` branch is unreachable; and the voice thread
never removes `pink_boxes` entries (its recalibration branch only clears
the `recalibrated` flag). -/
theorem C10_pink_boxes_safe :
    (∀ s : AppState, Reachable s → s.recalibrated = true →
        (List.lookup 10 s.pink_boxes).isSome = true ∧
        (List.lookup 152 s.pink_boxes).isSome = true ∧
        (List.lookup 168 s.pink_boxes).isSome = true) ∧
    (∀ s : AppState, Reachable s → ∀ inp : FrameIn, frameStep s inp ≠ none) ∧
    (∀ (s : AppState) (vom : Bool) (now : ℚ) (tsc : String),
        ((voice_command vom now tsc s).1).pink_boxes = s.pink_boxes) := by
  refine ⟨?_, ?_, ?_⟩
  · exact fun s hr => reachable_boxesOK s hr
  · intro s hr inp hnone
    cases hface : inp.face with
    | none =>
        rw [frameStep_no_face s inp hface] at hnone
        exact Option.noConfusion hnone
    | some f =>
        by_cases hrecal : s.recalibrated = true
        · have hok := reachable_boxesOK s hr hrecal
          obtain ⟨z10, h10⟩ := Option.isSome_iff_exists.mp hok.1
          obtain ⟨z152, h152⟩ := Option.isSome_iff_exists.mp hok.2.1
          obtain ⟨z168, h168⟩ := Option.isSome_iff_exists.mp hok.2.2
          rw [frameStep_calibrated s inp f z10 z152 z168 hface hrecal
            h10 h152 h168] at hnone
          exact Option.noConfusion hnone
        · have hrf : s.recalibrated = false := Bool.eq_false_iff.mpr hrecal
          cases hcs : s.calibration_start with
          | none =>
              rw [frameStep_uncal_start s inp f hface hrf hcs] at hnone
              exact Option.noConfusion hnone
          | some c =>
              by_cases hge : inp.time - c ≥ 2
              · rw [frameStep_uncal_snapshot s inp f c hface hrf hcs hge] at hnone
                exact Option.noConfusion hnone
              · rw [frameStep_uncal_wait s inp f c hface hrf hcs hge] at hnone
                exact Option.noConfusion hnone
  · exact fun s vom now tsc => (voice_command_boxes vom now tsc s).1

/-- Witness for C10: `calibSample` is reached from startup by the frames
at t = 1 and t = 3; in it all three lookups succeed, the next frame step
cannot raise, and a voice recalibration command keeps the boxes. -/
theorem C10_witness :
    ((List.lookup 10 calibSample.pink_boxes).isSome = true ∧
     (List.lookup 152 calibSample.pink_boxes).isSome = true ∧
     (List.lookup 168 calibSample.pink_boxes).isSome = true) ∧
    frameStep calibSample ⟨4, some faceSample⟩ ≠ none ∧
    ((voice_command false 4 ("calibrate") calibSample).1).pink_boxes =
      calibSample.pink_boxes :=
  have hreach : Reachable calibSample :=
    Reachable.frame
      (Reachable.frame (Reachable.init 0)
        (show frameStep (initState 0) ⟨1, some faceSample⟩ =
          some (calibStep1, []) by decide))
      (show frameStep calibStep1 ⟨3, some faceSample⟩ =
        some (calibSample, []) by decide)
  ⟨C10_pink_boxes_safe.1 calibSample hreach rfl,
   C10_pink_boxes_safe.2.1 calibSample hreach ⟨4, some faceSample⟩,
   C10_pink_boxes_safe.2.2 calibSample false 4 ("calibrate")⟩

end GazeSync
